import Mathlib

/- Verification of the AegisMedix live AI appointment session client
   (`desktop/app/ai-appointment/page.tsx`) against its design specification.

   Shallow embedding conventions:
   * Float32 audio samples are modelled as rationals.
   * The implicit ToInt16 conversion performed by an `Int16Array` element
     assignment is truncation toward zero (the scaled values always lie in
     the int16 range, so the wrap-around step of ToInt16 never acts).
   * The callback-driven session module is modelled as a step function on an
     explicit client-state record, driven by a list of environment events
     (WebSocket callbacks, capture ticks, timers, user actions); JavaScript
     is single threaded, so each callback body runs atomically. -/

/-- The session lifecycle phases (the `SessionStatus` union type, page.tsx). -/
inductive Phase where
  | idle | connecting | connected | speaking | listening | ended | error
  deriving DecidableEq, Repr

/-- WebSocket readiness: `new WebSocket(..)` starts in CONNECTING, `onopen`
moves it to OPEN, an error or a close moves it to CLOSED. -/
inductive WsReady where
  | connecting | opened | closed
  deriving DecidableEq, Repr

/-! ## Noise-gated frame encoder (processor.onaudioprocess) -/

/-- Sum of squared samples, as the source's accumulation loop
`sumSquares += inputData[i] * inputData[i]`. -/
def sumSquares (w : List ℚ) : ℚ := w.foldl (fun acc x => acc + x * x) 0

/-- The noise-gate test `rms < 0.02` where `rms = sqrt(sumSquares / length)`.
Both sides are nonnegative, so `sqrt (ss / n) < 1/50` iff `ss * 2500 < n`;
this rational form avoids the square root. For the empty window the source
compares `NaN < 0.02`, which is false, matching `0 * 2500 < 0`. -/
def rmsGate (w : List ℚ) : Bool := decide (sumSquares w * 2500 < (w.length : ℚ))

/-- `Math.max(-1, Math.min(1, x))`. -/
def clampSample (x : ℚ) : ℚ := max (-1) (min 1 x)

/-- Truncation toward zero: the conversion applied when a number is stored
into an `Int16Array` slot. -/
def truncTowardZero (q : ℚ) : ℤ := if q < 0 then -(⌊-q⌋) else ⌊q⌋

/-- `pcmData[i] = s < 0 ? s * 0x8000 : s * 0x7FFF` with `s` the clamped
sample. -/
def int16OfFloat (x : ℚ) : ℤ :=
  if clampSample x < 0 then truncTowardZero (clampSample x * 32768)
  else truncTowardZero (clampSample x * 32767)

/-- The noise-gated frame encoder (body of `processor.onaudioprocess`):
below the gate the int16 frame is `pcmData.fill(0)` — all zeros at the
window's length — otherwise each sample is clamped and asymmetrically
scaled. -/
def encodeFrame (w : List ℚ) : List ℤ :=
  if rmsGate w then List.replicate w.length 0 else w.map int16OfFloat

/-- Little-endian serialization of one int16 value, as exposed by
`new Uint8Array(pcmData.buffer)` on a little-endian platform. -/
def int16ToBytesLE (v : ℤ) : List ℕ :=
  [(v % 65536 % 256).toNat, (v % 65536 / 256).toNat]

/-- Little-endian packing of a whole int16 frame. -/
def packLE (l : List ℤ) : List ℕ := (l.map int16ToBytesLE).flatten

/-- Inbound playback decoding `int16Data[i] / 32768.0`
(processAudioQueue). -/
def decodeSample (v : ℤ) : ℚ := (v : ℚ) / 32768

/-- Reference encoder written from the specification text of the claim:
if the root-mean-square of the window is below 0.02 (stated here as the
squared comparison `mean of squares < (1/50)^2 = 1/2500`), emit a frame of
zeros of identical length; otherwise clamp each sample to [-1,1] and scale
negatives by 32768 and non-negatives by 32767. -/
def encodeFrameSpec (w : List ℚ) : List ℤ :=
  if (w.map (fun x => x ^ 2)).sum < (1 / 2500 : ℚ) * w.length then
    List.replicate w.length 0
  else
    w.map fun x =>
      let c := max (-1) (min 1 x)
      truncTowardZero (if c < 0 then c * 32768 else c * 32767)

/-! ## Session state machine, transport and playback queue -/

/-- Parsed inbound protocol messages, discriminated by their `type` tag.
An `audioMsg` carries the base64-decoded bytes, or `none` when `atob`
throws inside `playAudio` (corrupt base64, caught and dropped there).
`unknown` is a JSON object whose `type` matches no switch case. -/
inductive Msg where
  | statusConnected
  | statusEnded
  | audioMsg (chunk : Option (List ℕ))
  | textMsg
  | summaryMsg
  | errorMsg (m : String)
  | unknown
  deriving DecidableEq, Repr

/-- Environment events driving the module: user actions, WebSocket
callbacks, the audio capture tick, the 1 Hz video timer, the 150 ms
playback debounce timer (`audioTimerFire`, with `audioTimerFail` the
variant where the Web Audio calls inside `processAudioQueue` throw), and
the playback-completion callback. A `wsMsg none` is an inbound text frame
that `JSON.parse` rejects. -/
inductive Event where
  | startSession (deviceOk : Bool)
  | wsOpen
  | wsMsg (m : Option Msg)
  | wsError
  | wsClose
  | userEnd
  | captureTick (w : List ℚ)
  | videoTick
  | audioTimerFire
  | audioTimerFail
  | playbackEnded
  | startNewSession
  deriving DecidableEq, Repr

/-- Observable actions of a step, in program order: phase updates
(`setSessionStatus`), invocations of the cleanup routine, outbound
transport sends, and playback-unit starts/completions. -/
inductive Out where
  | phaseSet (p : Phase)
  | cleanupRun
  | sentConfig
  | sentAudioFrame (bytes : List ℕ)
  | sentVideoFrame
  | sentEnd
  | playbackStarted (bytes : List ℕ)
  | playbackCompleted
  deriving DecidableEq, Repr

/-- The module's mutable state: the React `sessionStatus`/`error`/summary
states and every `useRef` cell of the page. `wsConn` is `none` when
`wsRef.current` is null, otherwise it carries the socket's readiness.
`captureRunning` reflects a live capture context with the script processor
attached; `videoTimer` the `setInterval` installed by `startVideoCapture`
(never cleared by `cleanup`, faithful to the source). `isPlayingAudio`
doubles as the in-flight playback unit flag: within the atomic model a
playback unit is in flight exactly while it is true. -/
structure ClientState where
  phase : Phase
  errorMsg : Option String
  hasSummary : Bool
  enableVideo : Bool
  isSessionActive : Bool
  wsConn : Option WsReady
  socketCreated : Bool
  audioCtx : Bool
  mediaStream : Bool
  captureRunning : Bool
  videoTimer : Bool
  audioQueue2 : List (List ℕ)
  isPlayingAudio : Bool
  activeAudioCtx : Bool
  activeSourceNode : Bool
  deriving DecidableEq, Repr

/-- The pre-session component state (all refs null, phase `idle`). -/
def initState (vid : Bool) : ClientState :=
  { phase := .idle, errorMsg := none, hasSummary := false, enableVideo := vid,
    isSessionActive := false, wsConn := none, socketCreated := false,
    audioCtx := false, mediaStream := false, captureRunning := false,
    videoTimer := false, audioQueue2 := [], isPlayingAudio := false,
    activeAudioCtx := false, activeSourceNode := false }

/-- The Resource Reaper (`cleanup`): marks the session inactive, hard-stops
any in-flight playback unit (`sourceNode.stop()` fires its completion
callback, modelled synchronously; the `try/catch` around it absorbs any
exception), releases the playback and capture contexts, clears the queue
and the playing flag, stops the media tracks and closes and nulls the
WebSocket. The video interval is NOT cleared — faithful to the source,
which stores it on the socket object and never cancels it. -/
def cleanupFn (s : ClientState) : ClientState × List Out :=
  ({ s with isSessionActive := false, activeSourceNode := false,
            activeAudioCtx := false, audioQueue2 := [],
            isPlayingAudio := false, audioCtx := false,
            captureRunning := false, mediaStream := false, wsConn := none },
   Out.cleanupRun :: (if s.isPlayingAudio then [Out.playbackCompleted] else []))

/-- `playAudio`: decode base64 (a `none` chunk is the `atob` failure,
caught and dropped), push onto the queue; the 150 ms debounce timeout is
delivered later as an `audioTimerFire` event. -/
def playAudioFn (s : ClientState) (chunk : Option (List ℕ)) :
    ClientState × List Out :=
  match chunk with
  | none => (s, [])
  | some bytes => ({ s with audioQueue2 := s.audioQueue2 ++ [bytes] }, [])

/-- `processAudioQueue`: bail out unless the session is active, nothing is
playing and the queue is nonempty; otherwise splice the whole queue,
concatenate it into one playback unit and start it (the awaited context
setup and resume succeed in this variant). -/
def processAudioQueue (s : ClientState) : ClientState × List Out :=
  if !s.isSessionActive || s.isPlayingAudio || s.audioQueue2.isEmpty then
    (s, [])
  else
    ({ s with audioQueue2 := [], isPlayingAudio := true,
              activeAudioCtx := true, activeSourceNode := true },
     [Out.playbackStarted s.audioQueue2.flatten])

/-- `processAudioQueue` when a Web Audio call inside the `try` throws: the
queue was already spliced, the `catch` resets `isPlayingAudioRef`, and no
playback unit starts (PlaybackError absorbed locally). -/
def processAudioQueueFail (s : ClientState) : ClientState × List Out :=
  if !s.isSessionActive || s.isPlayingAudio || s.audioQueue2.isEmpty then
    (s, [])
  else
    ({ s with audioQueue2 := [] }, [])

/-- `sourceNode.onended`: clear the active-source ref and the playing flag;
if the session is still active, either start the next accumulated playback
unit at once or, with an empty queue and a non-null `wsRef`, return the
phase to `listening`. -/
def onEndedFn (s : ClientState) : ClientState × List Out :=
  let s1 := { s with activeSourceNode := false, isPlayingAudio := false }
  if s1.isSessionActive then
    if s1.audioQueue2.isEmpty then
      if s1.wsConn.isSome then
        ({ s1 with phase := .listening },
         [Out.playbackCompleted, Out.phaseSet .listening])
      else (s1, [Out.playbackCompleted])
    else
      let r := processAudioQueue s1
      (r.1, Out.playbackCompleted :: r.2)
  else (s1, [Out.playbackCompleted])

/-- `startAudioCapture`: requires the capture context, media stream and
socket refs to be non-null; attaches the script processor and moves the
phase to `listening`. -/
def startAudioCaptureFn (s : ClientState) : ClientState × List Out :=
  if s.audioCtx && s.mediaStream && s.wsConn.isSome then
    ({ s with captureRunning := true, phase := .listening },
     [Out.phaseSet .listening])
  else (s, [])

/-- `startVideoCapture`: requires a non-null socket ref (the canvas and
video elements are mounted in the active-session view); installs the 1 Hz
frame interval. -/
def startVideoCaptureFn (s : ClientState) : ClientState × List Out :=
  if s.wsConn.isSome then ({ s with videoTimer := true }, []) else (s, [])

/-- `handleServerMessage`, case by case in source order. Note that the
`audio` case sets the phase to `speaking` unconditionally before queueing,
the `error` case sets the phase to `error` without invoking cleanup, and
an unrecognized `type` falls through the switch silently. -/
def handleServerMessage (s : ClientState) : Msg → ClientState × List Out
  | .statusConnected =>
      let s1 := { s with phase := .connected }
      let r2 := startAudioCaptureFn s1
      let r3 := if s.enableVideo then startVideoCaptureFn r2.1 else (r2.1, [])
      (r3.1, Out.phaseSet .connected :: (r2.2 ++ r3.2))
  | .statusEnded =>
      let r := cleanupFn { s with phase := .ended }
      (r.1, Out.phaseSet .ended :: r.2)
  | .audioMsg chunk =>
      let r := playAudioFn { s with phase := .speaking } chunk
      (r.1, Out.phaseSet .speaking :: r.2)
  | .textMsg => (s, [])
  | .summaryMsg => ({ s with hasSummary := true }, [])
  | .errorMsg m =>
      ({ s with errorMsg := some m, phase := .error }, [Out.phaseSet .error])
  | .unknown => (s, [])

/-- `ws.onmessage`: `JSON.parse` throws on an unparseable frame — the
exception escapes the handler (no try/catch in the source) but no state
was mutated; a parsed message is dispatched to `handleServerMessage`. -/
def onMessageRaw (s : ClientState) (parsed : Option Msg) :
    Except String (ClientState × List Out) :=
  match parsed with
  | none => .error "SyntaxError: JSON.parse"
  | some m => .ok (handleServerMessage s m)

/-- `endSession`: send `{type:"end"}` if the socket is open, run cleanup,
then set the phase to `ended`. -/
def endSessionFn (s : ClientState) : ClientState × List Out :=
  let o1 := if s.wsConn = some .opened then [Out.sentEnd] else []
  let r := cleanupFn s
  ({ r.1 with phase := .ended }, o1 ++ r.2 ++ [Out.phaseSet .ended])

/-- One atomic callback execution. Infeasible events (e.g. a message on a
socket that is not OPEN, a start click outside `idle`) are no-ops: the
browser would not deliver them, or the guard at the top of the handler
returns. -/
def step (s : ClientState) : Event → ClientState × List Out
  | .startSession deviceOk =>
      -- startLiveSession: only reachable from the idle view's start button.
      if s.phase = .idle then
        let s1 := { s with phase := .connecting, errorMsg := none,
                           isSessionActive := true }
        if deviceOk then
          ({ s1 with mediaStream := true, audioCtx := true,
                     wsConn := some .connecting, socketCreated := true },
           [Out.phaseSet .connecting])
        else
          -- getUserMedia rejected: the catch sets error state; no socket
          -- was created and no cleanup runs.
          ({ s1 with phase := .error,
                     errorMsg := some "Failed to access microphone" },
           [Out.phaseSet .connecting, Out.phaseSet .error])
      else (s, [])
  | .wsOpen =>
      if s.wsConn = some .connecting then
        ({ s with wsConn := some .opened }, [Out.sentConfig])
      else (s, [])
  | .wsMsg parsed =>
      match parsed with
      | none => (s, [])  -- JSON.parse throws; see onMessageRaw
      | some m =>
          if s.wsConn = some .opened then handleServerMessage s m else (s, [])
  | .wsError =>
      -- onerror: the browser fires it on a failing socket (readyState is
      -- already CLOSING/CLOSED); the handler records the error phase only.
      if s.wsConn.isSome then
        ({ s with phase := .error, errorMsg := some "Connection error",
                  wsConn := some .closed },
         [Out.phaseSet .error])
      else (s, [])
  | .wsClose =>
      -- onclose: the captured `sessionStatus` is the stale pre-session
      -- value, never "ended", so the handler always sets `ended`.
      if s.socketCreated then
        ({ s with phase := .ended, wsConn := s.wsConn.map fun _ => .closed },
         [Out.phaseSet .ended])
      else (s, [])
  | .userEnd =>
      -- The End button renders only while the phase is neither idle nor ended.
      if s.phase ≠ .idle ∧ s.phase ≠ .ended then endSessionFn s else (s, [])
  | .captureTick w =>
      -- processor.onaudioprocess: fires while the capture context lives;
      -- drops the frame unless the socket readyState is OPEN.
      if s.captureRunning && s.wsConn = some .opened then
        (s, [Out.sentAudioFrame (packLE (encodeFrame w))])
      else (s, [])
  | .videoTick =>
      if s.videoTimer && s.wsConn = some .opened then
        (s, [Out.sentVideoFrame])
      else (s, [])
  | .audioTimerFire => processAudioQueue s
  | .audioTimerFail => processAudioQueueFail s
  | .playbackEnded =>
      -- onended of the in-flight source node (cleanup's hard stop already
      -- completes the unit synchronously in this model).
      if s.isPlayingAudio then onEndedFn s else (s, [])
  | .startNewSession =>
      -- The Start New Session button renders only in the ended view.
      if s.phase = .ended then
        ({ s with phase := .idle, hasSummary := false }, [Out.phaseSet .idle])
      else (s, [])

/-- Run a list of events, collecting the outputs of each step. -/
def runG (s : ClientState) : List Event → ClientState × List (List Out)
  | [] => (s, [])
  | e :: es =>
      let p := step s e
      let r := runG p.1 es
      (r.1, p.2 :: r.2)

/-- The sequence of phase values over a run: the initial phase followed by
every value passed to `setSessionStatus`. -/
def phaseTrace (s : ClientState) (es : List Event) : List Phase :=
  s.phase :: (runG s es).2.flatten.filterMap fun o =>
    match o with
    | Out.phaseSet p => some p
    | _ => none

/-- Number of cleanup invocations among a step's outputs. -/
def countCleanup (l : List Out) : ℕ :=
  (l.filter fun o => o = Out.cleanupRun).length

/-- Outbound media frames among outputs (audio or video). -/
def isFrameOut : Out → Bool
  | .sentAudioFrame _ => true
  | .sentVideoFrame => true
  | _ => false

/-- Number of outbound media frames among outputs. -/
def framesSent (l : List Out) : ℕ := (l.filter isFrameOut).length

/-- Payloads of the playback units started in an output list. -/
def startedPayloads (l : List Out) : List (List ℕ) :=
  l.filterMap fun o =>
    match o with
    | Out.playbackStarted b => some b
    | _ => none

/-- Projection of outputs onto playback events: `true` for a unit start,
`false` for a completion callback. -/
def projPC (l : List Out) : List Bool :=
  l.filterMap fun o =>
    match o with
    | Out.playbackStarted _ => some true
    | Out.playbackCompleted => some false
    | _ => none

/-- Validity of a start/completion sequence given whether a unit is
already in flight: a start requires no unit in flight, a completion ends
the in-flight unit. -/
def okFrom : Bool → List Bool → Bool
  | _, [] => true
  | f, b :: rest => if f && b then false else okFrom b rest

/-- No playback unit starts while another is in flight: no two starts
without a completion between them. -/
def noTwoStarts (l : List Bool) : Bool := okFrom false l

/-- Events that begin a new session (acquire fresh resources). -/
def isStartEvent : Event → Bool
  | .startSession _ => true
  | _ => false

/-- The claimed phase-ordering discipline of C2 on one observed transition
`p → q` with `p ≠ q`: `speaking` only from `listening`, `connected` only
from `connecting`, and nothing after `ended` or `error`. -/
def pairOk (p q : Phase) : Bool :=
  if p = q then true
  else if p = .ended ∨ p = .error then false
  else if q = .speaking then decide (p = .listening)
  else if q = .connected then decide (p = .connecting)
  else true

/-- C2's claimed discipline over a whole phase sequence. -/
def chainOk : List Phase → Bool
  | p :: q :: rest => pairOk p q && chainOk (q :: rest)
  | _ => true

/-- Every device, playback, queue and transport reference is released. -/
def allReleased (s : ClientState) : Bool :=
  !s.isSessionActive && !s.activeSourceNode && !s.activeAudioCtx &&
  s.audioQueue2.isEmpty && !s.isPlayingAudio && !s.audioCtx &&
  !s.captureRunning && !s.mediaStream && s.wsConn.isNone

/-- A reachable state with an open connection (used by witnesses):
the run after consent and socket open. -/
def sOpenConn : ClientState :=
  (runG (initState false) [Event.startSession true, Event.wsOpen]).1

/-- A reachable mid-session state: connected handshake done, capture
running, phase `listening`, nothing queued or playing. -/
def sListening : ClientState :=
  (runG (initState false)
    [Event.startSession true, Event.wsOpen,
     Event.wsMsg (some Msg.statusConnected)]).1

/-- A reachable terminal state: ended via the peer status message, cleanup
done (inactive, socket ref null). -/
def sEndedClean : ClientState :=
  (runG (initState false)
    [Event.startSession true, Event.wsOpen,
     Event.wsMsg (some Msg.statusConnected),
     Event.wsMsg (some Msg.statusEnded)]).1

/-- The in-flight flag value after a start/completion sequence. -/
def lastFlag (f : Bool) : List Bool → Bool
  | [] => f
  | b :: rest => lastFlag b rest

lemma foldl_add_sq (w : List ℚ) (a : ℚ) :
    w.foldl (fun acc x => acc + x * x) a = a + (w.map (fun x => x ^ 2)).sum := by
  induction w generalizing a with
  | nil => simp
  | cons y ys ih =>
      simp only [List.foldl_cons, List.map_cons, List.sum_cons, ih]
      ring

lemma sumSquares_eq (w : List ℚ) : sumSquares w = (w.map (fun x => x ^ 2)).sum := by
  simpa using foldl_add_sq w 0

/-- C3: on every sample window the encoder agrees with the specification's
reference definition — a below-gate window yields an all-zero int16 frame of
the window's length, any other window yields the clamped asymmetric scaling
(negatives by 32768, non-negatives by 32767) — and the emitted frame always
has exactly as many samples as the input window. The encoder is a pure
function of the single window, so it carries no state across windows. -/
theorem c3_encoder_matches_reference (w : List ℚ) :
    encodeFrame w = encodeFrameSpec w ∧ (encodeFrame w).length = w.length := by
  have hgate : (sumSquares w * 2500 < (w.length : ℚ)) ↔
      ((w.map (fun x => x ^ 2)).sum < (1 / 2500 : ℚ) * w.length) := by
    rw [sumSquares_eq, one_div, inv_mul_eq_div,
      lt_div_iff (by norm_num : (0 : ℚ) < 2500)]
  constructor
  · unfold encodeFrame encodeFrameSpec rmsGate
    by_cases h : sumSquares w * 2500 < (w.length : ℚ)
    · rw [if_pos (decide_eq_true h), if_pos (hgate.mp h)]
    · rw [if_neg (by simpa using h), if_neg (fun hc => h (hgate.mpr hc))]
      refine List.map_congr_left fun x _ => ?_
      simp only [int16OfFloat, clampSample, apply_ite truncTowardZero]
  · unfold encodeFrame
    by_cases h : rmsGate w <;> simp [h]

lemma trunc_bounds_of_neg {q : ℚ} (h : q < 0) :
    q ≤ (truncTowardZero q : ℚ) ∧ (truncTowardZero q : ℚ) < q + 1 := by
  unfold truncTowardZero
  rw [if_pos h]
  have hle : ((⌊-q⌋ : ℤ) : ℚ) ≤ -q := Int.floor_le (-q)
  have hlt : -q < ((⌊-q⌋ : ℤ) : ℚ) + 1 := Int.lt_floor_add_one (-q)
  push_cast
  constructor <;> linarith

lemma trunc_bounds_of_nonneg {q : ℚ} (h : 0 ≤ q) :
    q - 1 < (truncTowardZero q : ℚ) ∧ (truncTowardZero q : ℚ) ≤ q := by
  unfold truncTowardZero
  rw [if_neg (not_lt.mpr h)]
  have hle : ((⌊q⌋ : ℤ) : ℚ) ≤ q := Int.floor_le q
  have hlt : q < ((⌊q⌋ : ℤ) : ℚ) + 1 := Int.lt_floor_add_one q
  constructor <;> linarith

/-- C4 counterexample: the round trip is NOT always within one LSB.
At s = 9999/10000 the non-negative branch scales by 32767 and truncates
(giving 32763), but decoding divides by 32768, so the decoded value
32763/32768 differs from s by 17232/327680000 > 1/32768. -/
theorem c4_one_lsb_cex :
    1 / 32768 < |decodeSample (int16OfFloat (9999 / 10000)) - 9999 / 10000| := by
  have hclamp : clampSample (9999 / 10000 : ℚ) = 9999 / 10000 := by
    unfold clampSample
    rw [min_eq_right (by norm_num), max_eq_right (by norm_num)]
  have hv : int16OfFloat (9999 / 10000) = 32763 := by
    unfold int16OfFloat truncTowardZero
    rw [hclamp, if_neg (by norm_num), if_neg (by norm_num)]
    norm_num
  rw [hv]
  unfold decodeSample
  have hneg : (32763 : ℚ) / 32768 - 9999 / 10000 < 0 := by norm_num
  rw [show ((32763 : ℤ) : ℚ) = (32763 : ℚ) by norm_num, abs_of_neg hneg]
  norm_num

/-- C4 (amended): the int16 encode/decode round trip is within two LSB, not
one: for every normalized s in [-1,1], |decode (encode s) - s| < 2/32768.
(The negative branch is within 1/32768; the non-negative branch, scaled by
32767 but decoded by 1/32768, can exceed one LSB but never reaches two.) -/
theorem c4_roundtrip_two_lsb (s : ℚ) (h1 : -1 ≤ s) (h2 : s ≤ 1) :
    |decodeSample (int16OfFloat s) - s| < 2 / 32768 := by
  have hcl : clampSample s = s := by
    unfold clampSample
    rw [min_eq_right h2, max_eq_right h1]
  have h32 : (0 : ℚ) < 32768 := by norm_num
  unfold int16OfFloat decodeSample
  rw [hcl]
  by_cases hneg : s < 0
  · rw [if_pos hneg]
    have hprod : s * 32768 < 0 := mul_neg_of_neg_of_pos hneg (by norm_num)
    obtain ⟨hb1, hb2⟩ := trunc_bounds_of_neg hprod
    rw [div_sub' _ _ _ (ne_of_gt h32), abs_div, abs_of_pos h32,
      div_lt_div_iff h32 h32]
    have habs : |(truncTowardZero (s * 32768) : ℚ) - 32768 * s| < 2 := by
      rw [abs_lt]
      constructor <;> nlinarith
    nlinarith [habs]
  · rw [if_neg hneg]
    have hs0 : 0 ≤ s := not_lt.mp hneg
    have hprod : 0 ≤ s * 32767 := mul_nonneg hs0 (by norm_num)
    obtain ⟨hb1, hb2⟩ := trunc_bounds_of_nonneg hprod
    rw [div_sub' _ _ _ (ne_of_gt h32), abs_div, abs_of_pos h32,
      div_lt_div_iff h32 h32]
    have habs : |(truncTowardZero (s * 32767) : ℚ) - 32768 * s| < 2 := by
      rw [abs_lt]
      constructor <;> nlinarith
    nlinarith [habs]

theorem c4_roundtrip_two_lsb_witness :
    (-1 ≤ (1 / 2 : ℚ) ∧ (1 / 2 : ℚ) ≤ 1) ∧
      |decodeSample (int16OfFloat (1 / 2)) - 1 / 2| < 2 / 32768 :=
  ⟨⟨by norm_num, by norm_num⟩,
    c4_roundtrip_two_lsb (1 / 2) (by norm_num) (by norm_num)⟩

/-- C7: the Resource Reaper is idempotent and total: on every state —
including partially initialized ones, since every field combination is
quantified — running cleanup twice yields exactly the state of running it
once (no error is possible: the one throwing call, `sourceNode.stop()`, is
wrapped in try/catch, so the function is total), and after one run all
device, playback, queue and transport references are released. -/
theorem c7_cleanup_idempotent (s : ClientState) :
    (cleanupFn (cleanupFn s).1).1 = (cleanupFn s).1 ∧
    allReleased (cleanupFn s).1 = true :=
  ⟨rfl, rfl⟩

/-- C10: once the session has been marked inactive, the playback-queue
processor is a complete no-op (same state, no outputs, hence no playback
unit started) and the playback-completion handler starts no unit, leaves
the in-flight flag false and never moves the phase (in particular not to
`listening`). -/
theorem c10_inactive_playback_inert (s : ClientState)
    (h : s.isSessionActive = false) :
    processAudioQueue s = (s, []) ∧
    startedPayloads (onEndedFn s).2 = [] ∧
    ((onEndedFn s).1).isPlayingAudio = false ∧
    ((onEndedFn s).1).phase = s.phase := by
  refine ⟨?_, ?_, ?_, ?_⟩
  · simp [processAudioQueue, h]
  · simp [onEndedFn, h, startedPayloads]
  · simp [onEndedFn, h]
  · simp [onEndedFn, h]

theorem c10_inactive_playback_inert_witness :
    ((cleanupFn sListening).1).isSessionActive = false ∧
    (processAudioQueue ((cleanupFn sListening).1) = ((cleanupFn sListening).1, []) ∧
     startedPayloads (onEndedFn ((cleanupFn sListening).1)).2 = [] ∧
     ((onEndedFn ((cleanupFn sListening).1)).1).isPlayingAudio = false ∧
     ((onEndedFn ((cleanupFn sListening).1)).1).phase =
       ((cleanupFn sListening).1).phase) :=
  ⟨by decide, c10_inactive_playback_inert _ (by decide)⟩

/-- C9 counterexample: an unparseable inbound frame makes `ws.onmessage`
raise (the `JSON.parse` exception escapes the handler, which has no
try/catch), so the handler does not drop such a message "without raising
an error" — here at the concrete reachable post-handshake state. -/
theorem c9_malformed_raises_cex :
    onMessageRaw sOpenConn none = Except.error "SyntaxError: JSON.parse" ∧
    (onMessageRaw sOpenConn none).isOk = false :=
  ⟨rfl, rfl⟩

/-- C9 (amended): a malformed inbound message never changes the session
phase or any other session state, and a parseable message of unrecognized
kind is dropped silently with no error; an unparseable message, however,
raises the parse exception out of the arrival handler (while still leaving
all state unchanged) rather than being dropped errorlessly. -/
theorem c9_malformed_handling_amended (s : ClientState) :
    onMessageRaw s none = Except.error "SyntaxError: JSON.parse" ∧
    handleServerMessage s .unknown = (s, []) ∧
    step s (.wsMsg none) = (s, []) :=
  ⟨rfl, rfl, rfl⟩

/-- C1 counterexample: the peer-error-message transition into `error`
invokes cleanup zero times, not exactly once: the third step below emits
the `error` phase change and no `cleanupRun`. -/
theorem c1_peer_error_no_cleanup_cex :
    (runG (initState false)
      [Event.startSession true, Event.wsOpen,
       Event.wsMsg (some (Msg.errorMsg "model overloaded"))]).2 =
      [[Out.phaseSet .connecting], [Out.sentConfig], [Out.phaseSet .error]] ∧
    countCleanup [Out.phaseSet Phase.error] = 0 := by
  decide

/-- C1 (amended): of the transitions into `ended` or `error`, exactly two
invoke the Resource Reaper, each exactly once: the peer `status:ended`
message and the user end action. The transitions into `error` (peer error
message, transport error, device-acquisition failure) and into `ended` via
transport close invoke it zero times. -/
theorem c1_cleanup_invocation_amended :
    (∀ s : ClientState, s.wsConn = some .opened →
        countCleanup (step s (.wsMsg (some .statusEnded))).2 = 1) ∧
    (∀ s : ClientState, s.phase ≠ .idle → s.phase ≠ .ended →
        countCleanup (step s .userEnd).2 = 1) ∧
    (∀ (s : ClientState) (m : String),
        countCleanup (step s (.wsMsg (some (.errorMsg m)))).2 = 0) ∧
    (∀ s : ClientState, countCleanup (step s .wsError).2 = 0) ∧
    (∀ s : ClientState, countCleanup (step s .wsClose).2 = 0) ∧
    (∀ s : ClientState, countCleanup (step s (.startSession false)).2 = 0) := by
  refine ⟨?_, ?_, ?_, ?_, ?_, ?_⟩
  · intro s h
    by_cases hp : s.isPlayingAudio <;>
      simp [step, h, handleServerMessage, cleanupFn, countCleanup, hp]
  · intro s h1 h2
    by_cases hw : s.wsConn = some WsReady.opened <;>
      by_cases hp : s.isPlayingAudio <;>
        simp [step, h1, h2, endSessionFn, cleanupFn, countCleanup, hw, hp]
  · intro s m
    by_cases hw : s.wsConn = some WsReady.opened <;>
      simp [step, handleServerMessage, countCleanup, hw]
  · intro s
    by_cases hw : s.wsConn.isSome <;> simp [step, countCleanup, hw]
  · intro s
    by_cases hc : s.socketCreated <;> simp [step, countCleanup, hc]
  · intro s
    by_cases hp : s.phase = Phase.idle <;> simp [step, countCleanup, hp]

theorem c1_cleanup_invocation_witness :
    countCleanup (step sOpenConn (.wsMsg (some .statusEnded))).2 = 1 ∧
    countCleanup (step sOpenConn .userEnd).2 = 1 ∧
    countCleanup (step sOpenConn (.wsMsg (some (.errorMsg "x")))).2 = 0 ∧
    countCleanup (step sOpenConn .wsError).2 = 0 ∧
    countCleanup (step sOpenConn .wsClose).2 = 0 ∧
    countCleanup (step sOpenConn (.startSession false)).2 = 0 :=
  ⟨c1_cleanup_invocation_amended.1 sOpenConn (by decide),
   c1_cleanup_invocation_amended.2.1 sOpenConn (by decide) (by decide),
   c1_cleanup_invocation_amended.2.2.1 sOpenConn "x",
   c1_cleanup_invocation_amended.2.2.2.1 sOpenConn,
   c1_cleanup_invocation_amended.2.2.2.2.1 sOpenConn,
   c1_cleanup_invocation_amended.2.2.2.2.2 sOpenConn⟩

/-- C5: from the reachable listening state with an idle playback pipeline,
three inbound `audio` messages arriving inside the debounce window (their
three 150 ms timeouts all fire after the third arrival) start exactly one
playback unit, whose sample buffer is the byte-wise concatenation of the
three decoded chunks in arrival order; afterwards the queue is empty (the
second and third pending timeouts find the in-flight flag set and return). -/
theorem c5_burst_single_playback (b1 b2 b3 : List ℕ) :
    startedPayloads ((runG sListening
      [Event.wsMsg (some (Msg.audioMsg (some b1))),
       Event.wsMsg (some (Msg.audioMsg (some b2))),
       Event.wsMsg (some (Msg.audioMsg (some b3))),
       Event.audioTimerFire, Event.audioTimerFire, Event.audioTimerFire]).2.flatten) =
      [b1 ++ b2 ++ b3] ∧
    ((runG sListening
      [Event.wsMsg (some (Msg.audioMsg (some b1))),
       Event.wsMsg (some (Msg.audioMsg (some b2))),
       Event.wsMsg (some (Msg.audioMsg (some b3))),
       Event.audioTimerFire, Event.audioTimerFire, Event.audioTimerFire]).1).audioQueue2 = [] := by
  constructor <;>
    simp [sListening, initState, runG, step, handleServerMessage, playAudioFn,
      processAudioQueue, startAudioCaptureFn, startedPayloads]

@[simp] lemma playAudioFn_snd (s : ClientState) (c : Option (List ℕ)) :
    (playAudioFn s c).2 = [] := by
  cases c <;> rfl

@[simp] lemma startVideoCaptureFn_snd (s : ClientState) :
    (startVideoCaptureFn s).2 = [] := by
  unfold startVideoCaptureFn
  split <;> rfl

@[simp] lemma startAudioCaptureFn_snd (s : ClientState) :
    (startAudioCaptureFn s).2 =
      if s.audioCtx && s.mediaStream && s.wsConn.isSome then
        [Out.phaseSet .listening]
      else [] := by
  unfold startAudioCaptureFn
  split <;> simp_all

@[simp] lemma cleanupFn_snd (s : ClientState) :
    (cleanupFn s).2 =
      Out.cleanupRun :: (if s.isPlayingAudio then [Out.playbackCompleted] else []) :=
  rfl

@[simp] lemma processAudioQueue_snd (s : ClientState) :
    (processAudioQueue s).2 =
      if !s.isSessionActive || s.isPlayingAudio || s.audioQueue2.isEmpty then []
      else [Out.playbackStarted s.audioQueue2.flatten] := by
  unfold processAudioQueue
  split <;> simp_all

@[simp] lemma snd_ite (c : Prop) [Decidable c] (a b : ClientState × List Out) :
    (if c then a else b).2 = if c then a.2 else b.2 := by
  split <;> rfl

@[simp] lemma fst_ite (c : Prop) [Decidable c] (a b : ClientState × List Out) :
    (if c then a else b).1 = if c then a.1 else b.1 := by
  split <;> rfl

/-- C2 counterexample: the handler applies phase changes without checking
the current phase, and a peer error message leaves the socket open; so
after a peer `error` a further `status:connected` message drives the phase
`error → connected → listening` — `connected` is entered from `error`, not
from `connecting`, and `error` is not terminal. The claimed ordering
discipline is false on this concrete reachable trace. -/
theorem c2_phase_order_cex :
    phaseTrace (initState false)
      [Event.startSession true, Event.wsOpen,
       Event.wsMsg (some (Msg.errorMsg "oops")),
       Event.wsMsg (some Msg.statusConnected)] =
      [Phase.idle, .connecting, .error, .connected, .listening] ∧
    chainOk [Phase.idle, .connecting, .error, .connected, .listening] = false := by
  decide

/-- C2 (amended): what the code guarantees about phase ordering:
`connected` is entered only on receipt of a `status:connected` message and
`speaking` only on receipt of an `audio` message — but from whatever phase
the session is in at that moment (not only from `connecting` respectively
`listening`: the counterexample reaches `connected` from `error`, because
a peer error message leaves the transport open). `ended` IS terminal when
it was reached through a cleanup path (peer `status:ended` or user end:
session inactive and socket ref null): no event except the explicit
new-session action changes the phase then. `error` is not terminal. -/
theorem c2_phase_order_amended :
    (∀ (s : ClientState) (e : Event),
        Out.phaseSet .connected ∈ (step s e).2 →
        e = Event.wsMsg (some Msg.statusConnected)) ∧
    (∀ (s : ClientState) (e : Event),
        Out.phaseSet .speaking ∈ (step s e).2 →
        ∃ d, e = Event.wsMsg (some (Msg.audioMsg d))) ∧
    (∀ (s : ClientState) (e : Event),
        s.phase = .ended → s.isSessionActive = false → s.wsConn = none →
        e ≠ Event.startNewSession → ((step s e).1).phase = .ended) := by
  refine ⟨?_, ?_, ?_⟩
  · intro s e h
    cases e with
    | startSession ok =>
        exfalso
        simp only [step] at h
        split_ifs at h <;> simp_all
    | wsOpen =>
        exfalso
        simp only [step] at h
        split_ifs at h <;> simp_all
    | wsMsg parsed =>
        rcases parsed with _ | m
        · exact absurd h (by simp [step])
        · simp only [step] at h
          split_ifs at h
          · cases m with
            | statusConnected => rfl
            | statusEnded => exfalso; simp only [handleServerMessage, snd_ite, startAudioCaptureFn_snd, startVideoCaptureFn_snd, playAudioFn_snd, cleanupFn_snd, List.mem_cons, List.mem_append] at h; (try split_ifs at h) <;> simp_all
            | audioMsg chunk => exfalso; simp [handleServerMessage] at h
            | textMsg => exfalso; simp [handleServerMessage] at h
            | summaryMsg => exfalso; simp [handleServerMessage] at h
            | errorMsg m => exfalso; simp [handleServerMessage] at h
            | unknown => exfalso; simp [handleServerMessage] at h
          · simp at h
    | wsError =>
        exfalso; simp only [step] at h; split_ifs at h <;> simp_all
    | wsClose =>
        exfalso; simp only [step] at h; split_ifs at h <;> simp_all
    | userEnd =>
        exfalso
        simp only [step] at h
        split_ifs at h
        · simp only [endSessionFn] at h
          split_ifs at h <;> simp_all
        · simp_all
    | captureTick w =>
        exfalso; simp only [step] at h; split_ifs at h <;> simp_all
    | videoTick =>
        exfalso; simp only [step] at h; split_ifs at h <;> simp_all
    | audioTimerFire =>
        exfalso; simp only [step, processAudioQueue_snd] at h; split_ifs at h <;> simp_all
    | audioTimerFail =>
        exfalso; simp only [step, processAudioQueueFail] at h; split_ifs at h <;> simp_all
    | playbackEnded =>
        exfalso
        simp only [step] at h
        split_ifs at h
        · simp only [onEndedFn] at h
          split_ifs at h <;> simp_all
        · simp_all
    | startNewSession =>
        exfalso; simp only [step] at h; split_ifs at h <;> simp_all
  · intro s e h
    cases e with
    | startSession ok =>
        exfalso
        simp only [step] at h
        split_ifs at h <;> simp_all
    | wsOpen =>
        exfalso
        simp only [step] at h
        split_ifs at h <;> simp_all
    | wsMsg parsed =>
        rcases parsed with _ | m
        · exact absurd h (by simp [step])
        · simp only [step] at h
          split_ifs at h
          · cases m with
            | statusConnected => exfalso; simp only [handleServerMessage, snd_ite, startAudioCaptureFn_snd, startVideoCaptureFn_snd, playAudioFn_snd, cleanupFn_snd, List.mem_cons, List.mem_append] at h; (try split_ifs at h) <;> simp_all
            | statusEnded => exfalso; simp only [handleServerMessage, snd_ite, startAudioCaptureFn_snd, startVideoCaptureFn_snd, playAudioFn_snd, cleanupFn_snd, List.mem_cons, List.mem_append] at h; (try split_ifs at h) <;> simp_all
            | audioMsg chunk => exact ⟨chunk, rfl⟩
            | textMsg => exfalso; simp [handleServerMessage] at h
            | summaryMsg => exfalso; simp [handleServerMessage] at h
            | errorMsg m => exfalso; simp [handleServerMessage] at h
            | unknown => exfalso; simp [handleServerMessage] at h
          · simp at h
    | wsError =>
        exfalso; simp only [step] at h; split_ifs at h <;> simp_all
    | wsClose =>
        exfalso; simp only [step] at h; split_ifs at h <;> simp_all
    | userEnd =>
        exfalso
        simp only [step] at h
        split_ifs at h
        · simp only [endSessionFn] at h
          split_ifs at h <;> simp_all
        · simp_all
    | captureTick w =>
        exfalso; simp only [step] at h; split_ifs at h <;> simp_all
    | videoTick =>
        exfalso; simp only [step] at h; split_ifs at h <;> simp_all
    | audioTimerFire =>
        exfalso; simp only [step, processAudioQueue_snd] at h; split_ifs at h <;> simp_all
    | audioTimerFail =>
        exfalso; simp only [step, processAudioQueueFail] at h; split_ifs at h <;> simp_all
    | playbackEnded =>
        exfalso
        simp only [step] at h
        split_ifs at h
        · simp only [onEndedFn] at h
          split_ifs at h <;> simp_all
        · simp_all
    | startNewSession =>
        exfalso; simp only [step] at h; split_ifs at h <;> simp_all
  · intro s e h1 h2 h3 hne
    cases e with
    | startSession ok => simp [step, h1]
    | wsOpen => simp [step, h3, h1]
    | wsMsg parsed =>
        rcases parsed with _ | m
        · simp [step, h1]
        · simp [step, h3, h1]
    | wsError => simp [step, h3, h1]
    | wsClose => by_cases hc : s.socketCreated <;> simp [step, hc, h1]
    | userEnd => simp [step, h1]
    | captureTick w => simp [step, h1]
    | videoTick => simp [step, h1]
    | audioTimerFire => simp [step, processAudioQueue, h2, h1]
    | audioTimerFail => simp [step, processAudioQueueFail, h2, h1]
    | playbackEnded =>
        by_cases hp : s.isPlayingAudio <;> simp [step, onEndedFn, hp, h2, h1]
    | startNewSession => exact absurd rfl hne

theorem c2_phase_order_witness :
    Event.wsMsg (some Msg.statusConnected) = Event.wsMsg (some Msg.statusConnected) ∧
    (∃ d, Event.wsMsg (some (Msg.audioMsg (some [7]))) =
            Event.wsMsg (some (Msg.audioMsg d))) ∧
    ((step sEndedClean Event.wsClose).1).phase = Phase.ended :=
  ⟨c2_phase_order_amended.1 sListening (Event.wsMsg (some Msg.statusConnected))
      (by decide),
   c2_phase_order_amended.2.1 sListening
      (Event.wsMsg (some (Msg.audioMsg (some [7])))) (by decide),
   c2_phase_order_amended.2.2 sEndedClean Event.wsClose (by decide) (by decide)
      (by decide) (by decide)⟩

@[simp] lemma processAudioQueue_fst_ws (s : ClientState) :
    ((processAudioQueue s).1).wsConn = s.wsConn := by
  unfold processAudioQueue
  split <;> rfl

@[simp] lemma processAudioQueueFail_fst_ws (s : ClientState) :
    ((processAudioQueueFail s).1).wsConn = s.wsConn := by
  unfold processAudioQueueFail
  split <;> rfl

@[simp] lemma onEndedFn_fst_ws (s : ClientState) :
    ((onEndedFn s).1).wsConn = s.wsConn := by
  simp only [onEndedFn]
  split_ifs <;> simp

lemma framesSent_append (l1 l2 : List Out) :
    framesSent (l1 ++ l2) = framesSent l1 + framesSent l2 := by
  simp [framesSent, List.filter_append]

lemma step_no_socket_no_frames (s : ClientState) (e : Event)
    (h : s.wsConn = none) (he : isStartEvent e = false) :
    ((step s e).1).wsConn = none ∧ framesSent (step s e).2 = 0 := by
  cases e with
  | startSession ok => simp [isStartEvent] at he
  | wsOpen => simp [step, h, framesSent]
  | wsMsg parsed =>
      rcases parsed with _ | m
      · simp [step, framesSent, h]
      · simp [step, h, framesSent]
  | wsError => simp [step, h, framesSent]
  | wsClose =>
      by_cases hc : s.socketCreated <;>
        simp [step, hc, h, framesSent, isFrameOut]
  | userEnd =>
      by_cases hp : s.phase ≠ Phase.idle ∧ s.phase ≠ Phase.ended <;>
        by_cases hq : s.isPlayingAudio <;>
          simp [step, hp, hq, h, endSessionFn, cleanupFn, framesSent, isFrameOut]
  | captureTick w => simp [step, h, framesSent]
  | videoTick => simp [step, h, framesSent]
  | audioTimerFire =>
      constructor
      · simp [step, h]
      · simp only [step, processAudioQueue_snd]
        split <;> simp [framesSent, isFrameOut]
  | audioTimerFail =>
      constructor
      · simp [step, h]
      · simp only [step]
        unfold processAudioQueueFail
        split <;> simp [framesSent]
  | playbackEnded =>
      by_cases hp : s.isPlayingAudio <;>
        by_cases hq : s.audioQueue2.isEmpty <;>
          simp [step, hp, hq, h, onEndedFn, processAudioQueue, framesSent,
            isFrameOut]
      all_goals (try split_ifs <;> simp_all)
  | startNewSession =>
      by_cases hp : s.phase = Phase.ended <;>
        simp [step, hp, h, framesSent, isFrameOut]

lemma run_no_socket_no_frames (es : List Event) :
    ∀ s : ClientState, s.wsConn = none →
      (es.all fun e => !isStartEvent e) = true →
      framesSent (runG s es).2.flatten = 0 := by
  induction es with
  | nil => intro s _ _; simp [runG, framesSent]
  | cons e es ih =>
      intro s h hall
      simp only [List.all_cons, Bool.and_eq_true, Bool.not_eq_true'] at hall
      obtain ⟨hstep, hrec⟩ := step_no_socket_no_frames s e h hall.1
      simp only [runG, List.flatten_cons, framesSent_append]
      rw [hrec, ih _ hstep hall.2]

/-- C8 counterexample: after a transition into `error` caused by a peer
error message, the transport is still open and the capture callback's
readyState guard passes, so the very next capture tick transmits an audio
frame — outbound frames are NOT stopped by that error transition. -/
theorem c8_frames_after_error_cex :
    (runG (initState false)
      [Event.startSession true, Event.wsOpen,
       Event.wsMsg (some Msg.statusConnected),
       Event.wsMsg (some (Msg.errorMsg "oops")),
       Event.captureTick [1]]).2 =
      [[Out.phaseSet .connecting], [Out.sentConfig],
       [Out.phaseSet .connected, Out.phaseSet .listening],
       [Out.phaseSet .error],
       [Out.sentAudioFrame [255, 127]]] ∧
    ((runG (initState false)
      [Event.startSession true, Event.wsOpen,
       Event.wsMsg (some Msg.statusConnected),
       Event.wsMsg (some (Msg.errorMsg "oops")),
       Event.captureTick [1]]).1).phase = Phase.error ∧
    framesSent [Out.sentAudioFrame [255, 127]] = 1 := by
  have h1 : rmsGate [(1 : ℚ)] = false := by
    unfold rmsGate sumSquares
    norm_num
  have h2 : int16OfFloat 1 = 32767 := by
    unfold int16OfFloat clampSample truncTowardZero
    norm_num
  have hf : packLE (encodeFrame [(1 : ℚ)]) = [255, 127] := by
    unfold encodeFrame
    rw [h1]
    simp [h2, packLE, int16ToBytesLE]
  refine ⟨?_, ?_, by decide⟩ <;>
    simp [runG, step, initState, handleServerMessage, startAudioCaptureFn, hf]

/-- C8 (amended): the user end action does cancel all outbound media — it
nulls the transport reference, and from any state whose transport reference
is null, as long as no new session is started, no capture-tick or
video-timer callback ever transmits a frame (their readyState guards fail).
The same does NOT hold for the peer-error transition into `error`, which
leaves the transport open (see the counterexample). -/
theorem c8_no_frames_after_user_end :
    (∀ s : ClientState, s.phase ≠ .idle → s.phase ≠ .ended →
        ((step s .userEnd).1).wsConn = none) ∧
    (∀ (s : ClientState) (es : List Event), s.wsConn = none →
        (es.all fun e => !isStartEvent e) = true →
        framesSent (runG s es).2.flatten = 0) := by
  constructor
  · intro s hp1 hp2
    simp [step, hp1, hp2, endSessionFn, cleanupFn]
  · intro s es h hall
    exact run_no_socket_no_frames es s h hall

theorem c8_no_frames_after_user_end_witness :
    ((step sListening Event.userEnd).1).wsConn = none ∧
    framesSent (runG ((step sListening Event.userEnd).1)
      [Event.videoTick, Event.wsClose, Event.audioTimerFire]).2.flatten = 0 :=
  ⟨c8_no_frames_after_user_end.1 sListening (by decide) (by decide),
   c8_no_frames_after_user_end.2 ((step sListening Event.userEnd).1)
     [Event.videoTick, Event.wsClose, Event.audioTimerFire]
     (c8_no_frames_after_user_end.1 sListening (by decide) (by decide))
     (by decide)⟩

lemma okFrom_append (f : Bool) (g t : List Bool) :
    okFrom f (g ++ t) = (okFrom f g && okFrom (lastFlag f g) t) := by
  induction g generalizing f with
  | nil => simp [okFrom, lastFlag]
  | cons b rest ih =>
      simp only [List.cons_append, okFrom, lastFlag]
      by_cases hfb : f && b <;> simp [hfb, ih]

lemma projPC_append (l1 l2 : List Out) :
    projPC (l1 ++ l2) = projPC l1 ++ projPC l2 := by
  simp [projPC]

lemma step_pc (s : ClientState) (e : Event) :
    okFrom s.isPlayingAudio (projPC (step s e).2) = true ∧
    lastFlag s.isPlayingAudio (projPC (step s e).2) =
      ((step s e).1).isPlayingAudio := by
  cases e with
  | startSession ok =>
      by_cases hp : s.phase = Phase.idle <;>
        by_cases hok : ok <;>
          simp [step, hp, hok, projPC, okFrom, lastFlag]
  | wsOpen =>
      by_cases hw : s.wsConn = some WsReady.connecting <;>
        simp [step, hw, projPC, okFrom, lastFlag]
  | wsMsg parsed =>
      rcases parsed with _ | m
      · simp [step, projPC, okFrom, lastFlag]
      · by_cases hw : s.wsConn = some WsReady.opened
        · cases m with
          | statusConnected =>
              simp only [step, if_pos hw, handleServerMessage]
              by_cases hv : s.enableVideo <;>
                by_cases hc : ({ s with phase := Phase.connected } : ClientState).audioCtx &&
                    s.mediaStream && s.wsConn.isSome <;>
                  simp [hv, hc, startAudioCaptureFn, startVideoCaptureFn,
                    projPC, okFrom, lastFlag,
                    apply_ite ClientState.isPlayingAudio]
          | statusEnded =>
              by_cases hp : s.isPlayingAudio <;>
                simp [step, hw, handleServerMessage, cleanupFn, hp, projPC,
                  okFrom, lastFlag]
          | audioMsg chunk =>
              cases chunk <;>
                simp [step, hw, handleServerMessage, playAudioFn, projPC,
                  okFrom, lastFlag]
          | textMsg => simp [step, hw, handleServerMessage, projPC, okFrom, lastFlag]
          | summaryMsg => simp [step, hw, handleServerMessage, projPC, okFrom, lastFlag]
          | errorMsg m => simp [step, hw, handleServerMessage, projPC, okFrom, lastFlag]
          | unknown => simp [step, hw, handleServerMessage, projPC, okFrom, lastFlag]
        · simp [step, hw, projPC, okFrom, lastFlag]
  | wsError =>
      by_cases hw : s.wsConn.isSome <;>
        simp [step, hw, projPC, okFrom, lastFlag]
  | wsClose =>
      by_cases hc : s.socketCreated <;>
        simp [step, hc, projPC, okFrom, lastFlag]
  | userEnd =>
      by_cases hp : s.phase ≠ Phase.idle ∧ s.phase ≠ Phase.ended <;>
        by_cases hq : s.isPlayingAudio <;>
          by_cases hw : s.wsConn = some WsReady.opened <;>
            simp [step, hp, hq, hw, endSessionFn, cleanupFn, projPC, okFrom,
              lastFlag]
  | captureTick w =>
      by_cases hg : s.captureRunning && s.wsConn = some WsReady.opened <;>
        simp [step, hg, projPC, okFrom, lastFlag]
  | videoTick =>
      by_cases hg : s.videoTimer && s.wsConn = some WsReady.opened <;>
        simp [step, hg, projPC, okFrom, lastFlag]
  | audioTimerFire =>
      by_cases hg : !s.isSessionActive || s.isPlayingAudio || s.audioQueue2.isEmpty
      · simp [step, processAudioQueue, hg, projPC, okFrom, lastFlag]
      · have h3 := Bool.or_eq_false_iff.mp (Bool.eq_false_iff.mpr hg)
        have h4 := Bool.or_eq_false_iff.mp h3.1
        have ha : s.isSessionActive = true := by simpa using h4.1
        have hp : s.isPlayingAudio = false := h4.2
        have hqne : ¬ s.audioQueue2 = [] := by
          simpa [List.isEmpty_iff] using h3.2
        simp [step, processAudioQueue, hg, ha, hp, hqne, projPC, okFrom,
          lastFlag]
  | audioTimerFail =>
      by_cases hg : !s.isSessionActive || s.isPlayingAudio || s.audioQueue2.isEmpty
      · simp [step, processAudioQueueFail, hg, projPC, okFrom, lastFlag]
      · have h3 := Bool.or_eq_false_iff.mp (Bool.eq_false_iff.mpr hg)
        have h4 := Bool.or_eq_false_iff.mp h3.1
        have ha : s.isSessionActive = true := by simpa using h4.1
        have hp : s.isPlayingAudio = false := h4.2
        have hqne : ¬ s.audioQueue2 = [] := by
          simpa [List.isEmpty_iff] using h3.2
        simp [step, processAudioQueueFail, hg, ha, hp, hqne, projPC, okFrom,
          lastFlag]
  | playbackEnded =>
      by_cases hp : s.isPlayingAudio
      · by_cases hq : s.audioQueue2.isEmpty <;>
          by_cases ha : s.isSessionActive <;>
            by_cases hw : s.wsConn.isSome <;>
              simp [step, hp, hq, ha, hw, onEndedFn, processAudioQueue,
                projPC, okFrom, lastFlag]
      · simp [step, hp, projPC, okFrom, lastFlag]
  | startNewSession =>
      by_cases hp : s.phase = Phase.ended <;>
        simp [step, hp, projPC, okFrom, lastFlag]

lemma run_pc (es : List Event) :
    ∀ s : ClientState,
      okFrom s.isPlayingAudio (projPC (runG s es).2.flatten) = true := by
  induction es with
  | nil => intro s; simp [runG, projPC, okFrom]
  | cons e es ih =>
      intro s
      have h := step_pc s e
      simp only [runG, List.flatten_cons, projPC_append, okFrom_append, h.2]
      simp [h.1, ih ((step s e).1)]

/-- C6: inbound playback units never overlap. Over every event trace from
the initial state, the projection of the observable playback events onto
starts (`true`) and completion callbacks (`false`) never contains two
starts without a completion between them: every start happens with the
in-flight flag clear, the flag is set at each start, and it is cleared
only by the completion callback, by the playback error path, or by
cleanup's hard stop (which itself completes the in-flight unit). -/
theorem c6_playback_no_overlap (vid : Bool) (es : List Event) :
    noTwoStarts (projPC (runG (initState vid) es).2.flatten) = true := by
  have h := run_pc es (initState vid)
  simpa [noTwoStarts, initState] using h
